import Mathlib

/-!
# TorScraper: the anonymity-gated acquisition pipeline of `main.go`

A shallow embedding of `src/main.go`.  Go strings are byte sequences, so a
string is a list of byte values; the collaborators the program talks to (the
SOCKS5 dialer, the HTTP client, the rendering engine, the file system calls
that can fail, the clock) are the fields of a `World`, and the program is a
function of the world and the initial file system.  Console output
(`fmt.Print*`) has no effect on files, on the network or on control flow and is
left out.
-/

set_option maxRecDepth 100000

namespace TorScraper

deriving instance DecidableEq for Except

/-! ## Go strings -/

/-- A Go string: an immutable sequence of bytes. -/
abbrev GoString := List Nat

/-- UTF-8 encoding of one code point, as the Go compiler stores a literal. -/
def encodeRune (c : Nat) : List Nat :=
  if c < 0x80 then [c]
  else if c < 0x800 then [0xC0 + c / 64, 0x80 + c % 64]
  else if c < 0x10000 then [0xE0 + c / 4096, 0x80 + c / 64 % 64, 0x80 + c % 64]
  else [0xF0 + c / 262144, 0x80 + c / 4096 % 64, 0x80 + c / 64 % 64, 0x80 + c % 64]

/-- The bytes of a string literal of the source. -/
def str (s : String) : GoString :=
  s.toList.flatMap (fun c => encodeRune c.toNat)

/-- Go `strings.HasPrefix`. -/
def hasPrefix (s pre : GoString) : Bool :=
  pre.isPrefixOf s

/-- Go `strings.HasSuffix`. -/
def hasSuffix (s suf : GoString) : Bool :=
  suf.isSuffixOf s

/-- Go `strings.TrimPrefix`: `s` without the leading `pre`, or `s` itself when
it does not start with `pre`. -/
def trimPrefix (s pre : GoString) : GoString :=
  if hasPrefix s pre then s.drop pre.length else s

/-- Go `strings.TrimSuffix`: `s` without the trailing `suf`, or `s` itself when
it does not end with `suf`. -/
def trimSuffix (s suf : GoString) : GoString :=
  if hasSuffix s suf then s.take (s.length - suf.length) else s

/-- The replacer `strings.NewReplacer(":", "_", "/", "_", ".", "_")` on one
byte.  All three old strings and the new string are single bytes, so the
replacer works byte by byte. -/
def replaceByte (b : Nat) : Nat :=
  if b = 58 then 95        -- ':' becomes '_'
  else if b = 47 then 95   -- '/' becomes '_'
  else if b = 46 then 95   -- '.' becomes '_'
  else b

/-- The method `Replace` of that replacer. -/
def replacerReplace (s : GoString) : GoString :=
  s.map replaceByte

/-- The slice expression `s[:hi]`: a run-time panic when `hi` is out of range. -/
def sliceTo (s : GoString) (hi : Nat) : Except GoString GoString :=
  if hi ≤ s.length then .ok (s.take hi)
  else .error (str "runtime error: slice bounds out of range")

/-- The function `generateFilename` of `main.go`. -/
def generateFilename (rawUrl : GoString) : Except GoString GoString :=
  let name := trimPrefix rawUrl (str "http://")
  let name := trimPrefix name (str "https://")
  let name := trimSuffix name (str "/")
  let safe := replacerReplace name
  if safe.length > 50 then sliceTo safe 50 else .ok safe

/-! ## UTF-8 decoding, as the Go packages `unicode/utf8` and `unicode` do it -/

/-- The constant `utf8.RuneError`. -/
def runeError : Nat := 0xFFFD

/-- A continuation byte, `0x80` to `0xBF`. -/
def isCont (b : Nat) : Bool :=
  decide (0x80 ≤ b) && decide (b ≤ 0xBF)

/-- Go `utf8.DecodeRuneInString`: the first rune of `s` and its width in
bytes; an invalid or short encoding is `RuneError` of width 1, the empty
string is `RuneError` of width 0. -/
def decodeRune : GoString → Nat × Nat
  | [] => (runeError, 0)
  | s0 :: rest =>
    if s0 < 0x80 then (s0, 1)
    else if s0 < 0xC2 then (runeError, 1)
    else if s0 < 0xE0 then
      match rest with
      | s1 :: _ =>
        if isCont s1 then (s0 % 32 * 64 + s1 % 64, 2) else (runeError, 1)
      | _ => (runeError, 1)
    else if s0 < 0xF0 then
      match rest with
      | s1 :: s2 :: _ =>
        if decide ((if s0 = 0xE0 then 0xA0 else 0x80) ≤ s1)
            && decide (s1 ≤ (if s0 = 0xED then 0x9F else 0xBF)) && isCont s2 then
          (s0 % 16 * 4096 + s1 % 64 * 64 + s2 % 64, 3)
        else (runeError, 1)
      | _ => (runeError, 1)
    else if s0 < 0xF5 then
      match rest with
      | s1 :: s2 :: s3 :: _ =>
        if decide ((if s0 = 0xF0 then 0x90 else 0x80) ≤ s1)
            && decide (s1 ≤ (if s0 = 0xF4 then 0x8F else 0xBF)) && isCont s2 && isCont s3 then
          (s0 % 8 * 262144 + s1 % 64 * 4096 + s2 % 64 * 64 + s3 % 64, 4)
        else (runeError, 1)
      | _ => (runeError, 1)
    else (runeError, 1)

/-- Go `utf8.RuneCountInString`, with `skip` bytes of the current rune still to
pass over: every rune counts once, every invalid byte counts as one rune. -/
def runeCountFrom : Nat → GoString → Nat
  | _, [] => 0
  | skip + 1, _ :: rest => runeCountFrom skip rest
  | 0, b :: rest => 1 + runeCountFrom ((decodeRune (b :: rest)).2 - 1) rest

/-- Go `utf8.RuneCountInString`. -/
def runeCount (s : GoString) : Nat :=
  runeCountFrom 0 s

/-- Go `unicode.IsSpace`. -/
def isSpace (r : Nat) : Bool :=
  if r ≤ 0xFF then
    r = 9 || r = 10 || r = 11 || r = 12 || r = 13 || r = 32 || r = 0x85 || r = 0xA0
  else
    r = 0x1680 || (decide (0x2000 ≤ r) && decide (r ≤ 0x200A)) || r = 0x2028 || r = 0x2029
      || r = 0x202F || r = 0x205F || r = 0x3000

/-- Go `utf8.DecodeLastRuneInString`: the last rune of `s` and its width. -/
def decodeLastRune (s : GoString) : Nat × Nat :=
  match s.reverse with
  | [] => (runeError, 0)
  | last :: before =>
    if last < 0x80 then (last, 1)
    else
      -- walk back over at most three bytes to the nearest byte that starts a rune
      let back := (before.take 3).takeWhile isCont
      let start :=
        if back.length < (before.take 3).length then s.length - 2 - back.length
        else s.length - 5
      let (r, size) := decodeRune (s.drop start)
      if start + size ≠ s.length then (runeError, 1) else (r, size)

/-- Go `strings.TrimLeftFunc(s, unicode.IsSpace)`; `fuel` bounds the number of
runes removed and is the length of the string where it is called. -/
def trimLeftSpace : Nat → GoString → GoString
  | 0, s => s
  | fuel + 1, s =>
    if s = [] then s
    else if isSpace (decodeRune s).1 then trimLeftSpace fuel (s.drop (decodeRune s).2)
    else s

/-- Go `strings.TrimRightFunc(s, unicode.IsSpace)`, with the same fuel. -/
def trimRightSpace : Nat → GoString → GoString
  | 0, s => s
  | fuel + 1, s =>
    if s = [] then s
    else if isSpace (decodeLastRune s).1 then
      trimRightSpace fuel (s.take (s.length - (decodeLastRune s).2))
    else s

/-- Go `strings.TrimSpace`: `s` without leading and trailing white space, as
Unicode defines it.  (The library's fast path for ASCII computes the same
string.) -/
def trimSpace (s : GoString) : GoString :=
  let t := trimLeftSpace s.length s
  trimRightSpace t.length t

/-! ## Formatting -/

/-- The verb `%-Ns` of `fmt`: `s` followed by blanks up to a width of `width`
runes; a string of `width` runes or more is written unchanged. -/
def padRight (width : Nat) (s : GoString) : GoString :=
  s ++ List.replicate (width - runeCount s) 32

/-- The verb `%d` of `fmt` for a non-negative integer. -/
def fmtDecimal (n : Nat) : GoString :=
  (Nat.toDigits 10 n).map Char.toNat

/-! ## Configuration and data -/

/-- The constant `ReportFile`. -/
def ReportFile : GoString := str "scan_report.log"

/-- The struct `Config`: what `targets.yaml` decodes to. -/
structure Config where
  Targets : List GoString
deriving DecidableEq

/-- The struct `TorCheckIP`: what the answer of the Tor check decodes to. -/
structure TorCheckIP where
  IsTor : Bool
  IP : GoString
deriving DecidableEq

/-! ## The world outside the program -/

/-- How a call that opens a file and writes to it ends. -/
inductive IoOutcome
  /-- The file is opened and everything is written. -/
  | ok
  /-- The file cannot be opened; it is left as it was. -/
  | openFailed (err : GoString)
  /-- The file is opened, `written` bytes are written and then an error occurs. -/
  | writeFailed (written : Nat) (err : GoString)
deriving DecidableEq

/-- What the HTTP client does with one GET of `fetchHTML`. -/
inductive HttpResult
  /-- The request cannot be built: `http.NewRequest` returns an error. -/
  | requestError (err : GoString)
  /-- The round trip fails: `client.Do` returns an error. -/
  | doError (err : GoString)
  /-- A response with status code `status`; `io.ReadAll` on its body returns
  `body` and the error `readErr`. -/
  | response (status : Nat) (body : GoString) (readErr : Option GoString)
deriving DecidableEq

/-- What the GET of `verifyTorConnection` brings back. -/
inductive TorApiResult
  /-- The round trip fails: `client.Get` returns an error. -/
  | getError (err : GoString)
  /-- A response arrives; `decoded` is what `json.Unmarshal` makes of its body. -/
  | body (decoded : Except GoString TorCheckIP)

/-- The collaborators of the program.  The functions that take a number are
asked once per pass of the main loop, with the position of the target in the
list. -/
structure World where
  /-- The error of `proxy.SOCKS5`, if it returns one. -/
  socks5 : Option GoString
  /-- The exchange with `https://check.torproject.org/api/ip`. -/
  torApi : TorApiResult
  /-- The function `os.ReadFile`. -/
  readFile : GoString → Except GoString GoString
  /-- The function `yaml.Unmarshal` into a `Config`. -/
  yamlUnmarshal : GoString → Except GoString Config
  /-- The value of `time.Now().Format(time.RFC3339)` when the report is created. -/
  now : GoString
  /-- The fate of `os.Create` and `WriteString` in `initReportFile`. -/
  createReport : IoOutcome
  /-- The exchange of `fetchHTML` with the target. -/
  http : Nat → GoString → HttpResult
  /-- The fate of `os.WriteFile` for the document. -/
  htmlWrite : Nat → IoOutcome
  /-- The result of `chromedp.Run`: the image, or the error. -/
  render : Nat → GoString → Except GoString GoString
  /-- The fate of `os.WriteFile` for the image. -/
  pngWrite : Nat → IoOutcome
  /-- The fate of `os.OpenFile` and `WriteString` in `logToReport`. -/
  reportAppend : Nat → IoOutcome

/-- The file system: the content of every file that exists. -/
abbrev FS := GoString → Option GoString

/-- The file system with `name` holding `data`. -/
def FS.set (fs : FS) (name data : GoString) : FS :=
  fun n => if n = name then some data else fs n

/-- What the program does to the outside, in the order it does it. -/
inductive Event
  /-- The GET of `verifyTorConnection`. -/
  | torCheckGet
  /-- A call of `loadTargets`. -/
  | loadTargets (filename : GoString)
  /-- A call of `fetchHTML`. -/
  | fetchHTML (url : GoString)
  /-- A call of `takeScreenshot`. -/
  | takeScreenshot (url filename : GoString)
  /-- A call of `logToReport`. -/
  | logToReport (url status msg : GoString)
deriving DecidableEq

/-- The state a run threads through: the files and what has happened so far. -/
structure State where
  fs : FS
  trace : List Event

/-- The state after one more event. -/
def State.emit (st : State) (e : Event) : State :=
  { st with trace := st.trace ++ [e] }

/-- How the process ends. -/
inductive Exit
  /-- The function `main` returns. -/
  | normal
  /-- The call `log.Fatalf`: the message is logged and the process exits with status 1. -/
  | fatal (msg : GoString)
  /-- A run-time panic. -/
  | panic (msg : GoString)
deriving DecidableEq

/-! ## The functions of `main.go` -/

/-- The function `os.WriteFile`: the file is created or truncated, then written. -/
def osWriteFile (fs : FS) (name data : GoString) : IoOutcome → FS × Option GoString
  | .ok => (fs.set name data, none)
  | .openFailed err => (fs, some err)
  | .writeFailed written err => (fs.set name (data.take written), some err)

/-- The function `getTorHttpClient`: the error, if the client cannot be built. -/
def getTorHttpClient (w : World) : Option GoString :=
  w.socks5

/-- The function `fetchHTML`, given what the client does with the request. -/
def fetchHTML : HttpResult → Except GoString GoString
  | .requestError err => .error err
  | .doError err => .error err
  | .response status body readErr =>
    if status ≠ 200 then .error (str "Status Code: " ++ fmtDecimal status)
    else
      match readErr with
      | some err => .error err
      | none => .ok body

/-- The function `takeScreenshot`: the image is written only once
`chromedp.Run` has returned without error, and the error of the write is the
error of the function. -/
def takeScreenshot (w : World) (i : Nat) (st : State) (url filename : GoString) :
    State × Option GoString :=
  let st := st.emit (.takeScreenshot url filename)
  match w.render i url with
  | .error err => (st, some err)
  | .ok buf =>
    let r := osWriteFile st.fs filename buf (w.pngWrite i)
    ({ st with fs := r.1 }, r.2)

/-- The function `verifyTorConnection`. -/
def verifyTorConnection (w : World) (st : State) : State × Option GoString :=
  let st := st.emit .torCheckGet
  match w.torApi with
  | .getError err => (st, some (str "Tor API erişim hatası: " ++ err))
  | .body (.error err) => (st, some (str "JSON hatası: " ++ err))
  | .body (.ok result) =>
    if !result.IsTor then
      (st, some (str "DİKKAT! Tor IP\x27si kullanılmıyor! Mevcut IP: " ++ result.IP))
    else (st, none)

/-- The function `initReportFile`: the report is created or truncated and the
header written; a failure is ignored. -/
def initReportFile (w : World) (st : State) : State :=
  let header := str "SCAN REPORT - " ++ w.now ++ str "\nTarget | Status | Details\n"
    ++ List.replicate 60 45 ++ str "\n"
  { st with fs := (osWriteFile st.fs ReportFile header w.createReport).1 }

/-- The line `fmt.Sprintf("%-30s | %-8s | %s\n", url, status, msg)`. -/
def reportLine (url status msg : GoString) : GoString :=
  padRight 30 url ++ str " | " ++ padRight 8 status ++ str " | " ++ msg ++ str "\n"

/-- The function `logToReport`: the line is appended to the report; when the
report cannot be opened nothing is written. -/
def logToReport (w : World) (i : Nat) (st : State) (url status msg : GoString) : State :=
  let st := st.emit (.logToReport url status msg)
  let line := reportLine url status msg
  match w.reportAppend i with
  | .openFailed _ => st
  | .ok => { st with fs := st.fs.set ReportFile ((st.fs ReportFile).getD [] ++ line) }
  | .writeFailed written _ =>
    { st with fs := st.fs.set ReportFile ((st.fs ReportFile).getD [] ++ line.take written) }

/-- The function `loadTargets`. -/
def loadTargets (w : World) (filename : GoString) : Except GoString (List GoString) :=
  match w.readFile filename with
  | .error err => .error err
  | .ok data =>
    match w.yamlUnmarshal data with
    | .error err => .error err
    | .ok c => .ok c.Targets

/-- One pass of the main loop, for the entry `rawUrl` at position `i`: the
state afterwards, and the panic that ended the pass, if any. -/
def loopBody (w : World) (i : Nat) (rawUrl : GoString) (st : State) : State × Option GoString :=
  let targetURL := trimSpace rawUrl
  if targetURL = [] then (st, none)
  else
    match generateFilename targetURL with
    | .error p => (st, some p)
    | .ok baseName =>
      let htmlFile := baseName ++ str ".html"
      let imgFile := baseName ++ str ".png"
      let st := st.emit (.fetchHTML targetURL)
      match fetchHTML (w.http i targetURL) with
      | .error err =>
        (logToReport w i st targetURL (str "PASSIVE") (str "HTTP Error: " ++ err), none)
      | .ok htmlContent =>
        let st := { st with fs := (osWriteFile st.fs htmlFile htmlContent (w.htmlWrite i)).1 }
        let r := takeScreenshot w i st targetURL imgFile
        match r.2 with
        | some _ =>
          (logToReport w i r.1 targetURL (str "PARTIAL") (str "HTML OK, Screenshot FAILED"), none)
        | none =>
          (logToReport w i r.1 targetURL (str "ACTIVE")
            (str "HTML & PNG Saved (" ++ baseName ++ str ")"), none)

/-- The main loop `for i, rawUrl := range urls` from position `i` on. -/
def mainLoop (w : World) : Nat → List GoString → State → State × Option GoString
  | _, [], st => (st, none)
  | i, rawUrl :: rest, st =>
    match loopBody w i rawUrl st with
    | (st, some p) => (st, some p)
    | (st, none) => mainLoop w (i + 1) rest st

/-- The function `main`: how the process ends, and the state it leaves. -/
def main (w : World) (fs : FS) : Exit × State :=
  let st : State := { fs := fs, trace := [] }
  match getTorHttpClient w with
  | some err => (.fatal (str "[FATAL] HTTP Client oluşturulamadı: " ++ err), st)
  | none =>
    match verifyTorConnection w st with
    | (st, some err) => (.fatal (str "[FATAL] " ++ err), st)
    | (st, none) =>
      let st := st.emit (.loadTargets (str "targets.yaml"))
      match loadTargets w (str "targets.yaml") with
      | .error err => (.fatal (str "[FATAL] targets.yaml okunamadı: " ++ err), st)
      | .ok urls =>
        let st := initReportFile w st
        match mainLoop w 0 urls st with
        | (st, some p) => (.panic p, st)
        | (st, none) => (.normal, st)

/-- The error `takeScreenshot` returns at position `i` for `url`; it depends on
the rendering engine and on the write of the image, not on the state. -/
def captureError (w : World) (i : Nat) (url : GoString) : Option GoString :=
  match w.render i url with
  | .error err => some err
  | .ok _ =>
    match w.pngWrite i with
    | .ok => none
    | .openFailed err => some err
    | .writeFailed _ err => some err

/-- The text a call of `logToReport` adds to the report, given the fate of the
append: the whole line, nothing when the report cannot be opened, the bytes
written when the write is cut short. -/
def appendedText (o : IoOutcome) (line : GoString) : GoString :=
  match o with
  | .ok => line
  | .openFailed _ => []
  | .writeFailed written _ => line.take written

/-- The state in which `takeScreenshot` is called once the fetch has succeeded:
the fetch is in the trace and the document has been written, if it could be. -/
def afterHtml (w : World) (i : Nat) (st : State) (url base doc : GoString) : State :=
  { st.emit (.fetchHTML url) with
    fs := (osWriteFile st.fs (base ++ str ".html") doc (w.htmlWrite i)).1 }

/-! ## Reading a trace -/

/-- One recorded outcome: the arguments of a call of `logToReport`. -/
structure Outcome where
  target : GoString
  status : GoString
  detail : GoString
deriving DecidableEq

/-- The outcomes recorded in a trace, in order. -/
def outcomes (tr : List Event) : List Outcome :=
  tr.filterMap fun
    | .logToReport url status msg => some ⟨url, status, msg⟩
    | _ => none

/-- An event that reaches out to a target: a fetch or a capture. -/
def Event.isTargetAccess : Event → Bool
  | .fetchHTML _ => true
  | .takeScreenshot _ _ => true
  | _ => false

/-- An event that puts a request on the network. -/
def Event.isNetwork : Event → Bool
  | .torCheckGet => true
  | .fetchHTML _ => true
  | .takeScreenshot _ _ => true
  | _ => false

/-- An event that is a capture attempt. -/
def Event.isCapture : Event → Bool
  | .takeScreenshot _ _ => true
  | _ => false

/-! ## Concrete worlds -/

/-- The empty file system. -/
def emptyFS : FS := fun _ => none

/-- A world in which everything works: the Tor check confirms Tor,
`targets.yaml` holds `targets`, every fetch returns a small document, every
capture a small image, and every file operation succeeds. -/
def calmWorld (targets : List GoString) : World where
  socks5 := none
  torApi := .body (.ok ⟨true, str "185.220.101.1"⟩)
  readFile := fun _ => .ok (str "targets: [...]")
  yamlUnmarshal := fun _ => .ok ⟨targets⟩
  now := str "2024-05-01T10:00:00Z"
  createReport := .ok
  http := fun _ _ => .response 200 (str "<html>doc</html>") none
  htmlWrite := fun _ => .ok
  render := fun _ _ => .ok (str "png-bytes")
  pngWrite := fun _ => .ok
  reportAppend := fun _ => .ok

/-- The targets of the end-to-end scenario. -/
def scenarioTargets : List GoString :=
  [str "http://a.example/", str "", str "https://b.example/path"]

/-- The world of the end-to-end scenario: the capture of the third entry runs
into its deadline, everything else works. -/
def scenarioWorld : World :=
  { calmWorld scenarioTargets with
    render := fun i _ =>
      if i = 2 then .error (str "context deadline exceeded") else .ok (str "png-bytes") }


/-- A world in which the target cannot be reached: every round trip fails. -/
def unreachableWorld : World :=
  { calmWorld [str " http://a.example/ "] with
    http := fun _ _ => .doError (str "socks connect tcp 127.0.0.1:9150: connection refused") }

/-- A world in which the same target is listed twice and only the second
capture fails. -/
def repeatWorld : World :=
  { calmWorld [str "http://a.example/", str "http://a.example/"] with
    render := fun i _ =>
      if i = 1 then .error (str "context deadline exceeded") else .ok (str "png-bytes") }

/-- A world in which the document of the only target cannot be written, while
the image can. -/
def blockedHtmlWorld : World :=
  { calmWorld [str "http://a.example/"] with
    htmlWrite := fun _ => .openFailed (str "open a_example.html: is a directory") }

/-- A world in which the Tor check answers that the exit address is not a Tor
address. -/
def leakWorld : World :=
  { calmWorld [str "http://a.example/"] with
    torApi := .body (.ok ⟨false, str "203.0.113.7"⟩) }

/-- A world in which `targets.yaml` cannot be read. -/
def noTargetsFileWorld : World :=
  { calmWorld [] with
    readFile := fun _ => .error (str "open targets.yaml: no such file or directory") }

/-- A world in which the image of the only target is rendered and the disk
fills up three bytes into its write. -/
def tornImageWorld : World :=
  { calmWorld [str "http://a.example/"] with
    pngWrite := fun _ => .writeFailed 3 (str "write a_example.png: no space left on device") }

/-- The world of the end-to-end scenario with a report that cannot be opened
for appending. -/
def mutedReportWorld : World :=
  { scenarioWorld with
    reportAppend := fun _ => .openFailed (str "open scan_report.log: permission denied") }

/-- The world of the end-to-end scenario with a report that opens and then
takes no byte. -/
def tornReportWorld : World :=
  { scenarioWorld with
    reportAppend := fun _ => .writeFailed 0 (str "write scan_report.log: no space left on device") }

/-- A world in which the image of the only target is rendered and the image
file cannot be opened. -/
def blockedImageWorld : World :=
  { calmWorld [str "http://a.example/"] with
    pngWrite := fun _ => .openFailed (str "open a_example.png: is a directory") }

/-- A target longer than 30 bytes: the address of an onion service. -/
def onionUrl : GoString :=
  str "http://duckduckgogg42xjoc72x3sjasowoarfbgcmvfimaftt6twagswzczad.onion/"

/-! ## Trimming: the fuel is enough -/

theorem decodeRune_width_pos (b : Nat) (rest : GoString) : 1 ≤ (decodeRune (b :: rest)).2 := by
  simp only [decodeRune]
  repeat' split
  all_goals simp

theorem trimLeftSpace_succ (n : Nat) (s : GoString) :
    trimLeftSpace (n + 1) s
      = if s = [] then s
        else if isSpace (decodeRune s).1 then trimLeftSpace n (s.drop (decodeRune s).2)
        else s := rfl

theorem trimLeftSpace_fuel (n : Nat) :
    ∀ s : GoString, s.length ≤ n → trimLeftSpace (n + 1) s = trimLeftSpace n s := by
  induction n with
  | zero =>
    intro s h
    have hs : s = [] := List.length_eq_zero.mp (by omega)
    subst hs
    rfl
  | succ n ih =>
    intro s h
    rw [trimLeftSpace_succ (n + 1) s, trimLeftSpace_succ n s]
    cases s with
    | nil => rfl
    | cons b rest =>
      have hw := decodeRune_width_pos b rest
      rw [if_neg (List.cons_ne_nil b rest), if_neg (List.cons_ne_nil b rest)]
      by_cases hsp : isSpace (decodeRune (b :: rest)).1 = true
      · rw [if_pos hsp, if_pos hsp]
        apply ih
        simp only [List.length_drop, List.length_cons] at h ⊢
        omega
      · rw [if_neg hsp, if_neg hsp]

/-- More fuel than the length of the string does not change what
`trimLeftSpace` returns: the fuel `trimSpace` gives it is enough. -/
theorem trimLeftSpace_enough (s : GoString) (n : Nat) (h : s.length ≤ n) :
    trimLeftSpace n s = trimLeftSpace s.length s := by
  obtain ⟨k, rfl⟩ := Nat.exists_eq_add_of_le h
  induction k with
  | zero => rfl
  | succ k ih =>
    rw [← Nat.add_assoc, trimLeftSpace_fuel _ s (by omega)]
    exact ih (by omega)

theorem decodeLastRune_width_pos (s : GoString) (hs : s ≠ []) : 1 ≤ (decodeLastRune s).2 := by
  have hlen : 1 ≤ s.length := List.length_pos.mpr hs
  unfold decodeLastRune
  split
  · rename_i h
    exact absurd (List.reverse_eq_nil_iff.mp h) hs
  · split
    · simp
    · simp only [ne_eq, ite_not]
      split_ifs with h1 h2 h3
      · omega
      · simp
      · omega
      · simp

theorem trimRightSpace_succ (n : Nat) (s : GoString) :
    trimRightSpace (n + 1) s
      = if s = [] then s
        else if isSpace (decodeLastRune s).1 then
          trimRightSpace n (s.take (s.length - (decodeLastRune s).2))
        else s := rfl

theorem trimRightSpace_fuel (n : Nat) :
    ∀ s : GoString, s.length ≤ n → trimRightSpace (n + 1) s = trimRightSpace n s := by
  induction n with
  | zero =>
    intro s h
    have hs : s = [] := List.length_eq_zero.mp (by omega)
    subst hs
    rfl
  | succ n ih =>
    intro s h
    rw [trimRightSpace_succ (n + 1) s, trimRightSpace_succ n s]
    by_cases hs : s = []
    · simp [hs]
    · have hw := decodeLastRune_width_pos s hs
      have hlen : 1 ≤ s.length := List.length_pos.mpr hs
      rw [if_neg hs, if_neg hs]
      by_cases hsp : isSpace (decodeLastRune s).1 = true
      · rw [if_pos hsp, if_pos hsp]
        apply ih
        simp only [List.length_take]
        omega
      · rw [if_neg hsp, if_neg hsp]

/-- The same for `trimRightSpace`. -/
theorem trimRightSpace_enough (s : GoString) (n : Nat) (h : s.length ≤ n) :
    trimRightSpace n s = trimRightSpace s.length s := by
  obtain ⟨k, rfl⟩ := Nat.exists_eq_add_of_le h
  induction k with
  | zero => rfl
  | succ k ih =>
    rw [← Nat.add_assoc, trimRightSpace_fuel _ s (by omega)]
    exact ih (by omega)


/-! ## Counting runes in a padded string -/

theorem decodeRune_width_le (s : GoString) : (decodeRune s).2 ≤ s.length := by
  cases s with
  | nil => simp [decodeRune]
  | cons b rest =>
    simp only [decodeRune]
    repeat' split
    all_goals simp

theorem isCont_blank : isCont 32 = false := by decide

theorem decodeRune_pad (b : Nat) (rest : GoString) (k : Nat) :
    (decodeRune (b :: (rest ++ List.replicate k 32))).2 = (decodeRune (b :: rest)).2 := by
  by_cases h1 : b < 0x80
  · simp only [decodeRune, if_pos h1]
  by_cases h2 : b < 0xC2
  · simp only [decodeRune, if_neg h1, if_pos h2]
  by_cases h3 : b < 0xE0
  · rcases rest with _ | ⟨s1, rest⟩
    · rcases k with _ | k
      · rfl
      · simp [decodeRune, h1, h2, h3, List.replicate, isCont_blank]
    · simp only [decodeRune, if_neg h1, if_neg h2, if_pos h3, List.cons_append]
  by_cases h4 : b < 0xF0
  · rcases rest with _ | ⟨s1, _ | ⟨s2, rest⟩⟩
    · rcases k with _ | _ | k
      · rfl
      · simp [decodeRune, h1, h2, h3, h4, List.replicate]
      · simp [decodeRune, h1, h2, h3, h4, List.replicate, isCont_blank]
    · rcases k with _ | k
      · rfl
      · simp [decodeRune, h1, h2, h3, h4, List.replicate, isCont_blank]
    · simp only [decodeRune, if_neg h1, if_neg h2, if_neg h3, if_pos h4, List.cons_append]
  by_cases h5 : b < 0xF5
  · rcases rest with _ | ⟨s1, _ | ⟨s2, _ | ⟨s3, rest⟩⟩⟩
    · rcases k with _ | _ | _ | k
      · rfl
      · simp [decodeRune, h1, h2, h3, h4, h5, List.replicate]
      · simp [decodeRune, h1, h2, h3, h4, h5, List.replicate]
      · simp [decodeRune, h1, h2, h3, h4, h5, List.replicate, isCont_blank]
    · rcases k with _ | _ | k
      · rfl
      · simp [decodeRune, h1, h2, h3, h4, h5, List.replicate]
      · simp [decodeRune, h1, h2, h3, h4, h5, List.replicate, isCont_blank]
    · rcases k with _ | k
      · rfl
      · simp [decodeRune, h1, h2, h3, h4, h5, List.replicate, isCont_blank]
    · simp only [decodeRune, if_neg h1, if_neg h2, if_neg h3, if_neg h4, if_pos h5,
        List.cons_append]
  · simp only [decodeRune, if_neg h1, if_neg h2, if_neg h3, if_neg h4, if_neg h5]

theorem runeCountFrom_spaces (k : Nat) : runeCountFrom 0 (List.replicate k 32) = k := by
  induction k with
  | zero => rfl
  | succ k ih =>
    simp only [List.replicate, runeCountFrom, decodeRune]
    simp [ih]
    omega

theorem runeCountFrom_pad (k : Nat) :
    ∀ (s : GoString) (skip : Nat), skip ≤ s.length →
      runeCountFrom skip (s ++ List.replicate k 32) = runeCountFrom skip s + k := by
  intro s
  induction s with
  | nil =>
    intro skip h
    have h0 : skip = 0 := by simpa using h
    subst h0
    simp [runeCountFrom_spaces, runeCountFrom]
  | cons b rest ih =>
    intro skip h
    cases skip with
    | zero =>
      have hw := decodeRune_width_le (b :: rest)
      rw [List.cons_append]
      simp only [runeCountFrom]
      rw [decodeRune_pad, ih _ (by simp only [List.length_cons] at hw; omega)]
      omega
    | succ skip =>
      simp only [List.cons_append, runeCountFrom]
      exact ih skip (by simp only [List.length_cons] at h; omega)

theorem runeCount_padRight (width : Nat) (s : GoString) :
    runeCount (padRight width s) = max width (runeCount s) := by
  simp only [runeCount, padRight]
  rw [runeCountFrom_pad _ s 0 (Nat.zero_le _)]
  omega

/-! ## Artifact names -/

theorem replaceByte_safe (b : Nat) :
    replaceByte b ≠ 58 ∧ replaceByte b ≠ 47 ∧ replaceByte b ≠ 46 := by
  unfold replaceByte
  split_ifs <;> omega

theorem mem_replacerReplace {s : GoString} {b : Nat} (h : b ∈ replacerReplace s) :
    b ≠ 58 ∧ b ≠ 47 ∧ b ≠ 46 := by
  unfold replacerReplace at h
  obtain ⟨a, -, rfl⟩ := List.mem_map.mp h
  exact replaceByte_safe a

/-- The name `generateFilename` returns is the replaced string cut to 50 bytes,
and the function never panics. -/
theorem generateFilename_eq (rawUrl : GoString) :
    generateFilename rawUrl = .ok ((replacerReplace (trimSuffix (trimPrefix
      (trimPrefix rawUrl (str "http://")) (str "https://")) (str "/"))).take 50) := by
  simp only [generateFilename, sliceTo]
  split_ifs with h1 h2
  · rfl
  · omega
  · rw [List.take_of_length_le (by omega)]

theorem generateFilename_spec (rawUrl : GoString) :
    ∃ name, generateFilename rawUrl = .ok name ∧ name.length ≤ 50 ∧
      ∀ b ∈ name, b ≠ 58 ∧ b ≠ 47 ∧ b ≠ 46 := by
  refine ⟨_, generateFilename_eq rawUrl, ?_, ?_⟩
  · simp only [List.length_take]
    omega
  · intro b hb
    exact mem_replacerReplace (List.mem_of_mem_take hb)

/-- C6: for every URL string, `generateFilename` returns a name (the slice
`safe[:50]` never panics: it is taken only when `safe` has more than 50 bytes)
and the name is at most 50 bytes long. -/
theorem generateFilename_length_le_cap (rawUrl : GoString) :
    (∃ name, generateFilename rawUrl = .ok name ∧ name.length ≤ 50) ∧
      ∀ safe : GoString, safe.length > 50 → sliceTo safe 50 = .ok (safe.take 50) := by
  constructor
  · obtain ⟨name, h, hlen, -⟩ := generateFilename_spec rawUrl
    exact ⟨name, h, hlen⟩
  · intro safe h
    simp only [sliceTo]
    rw [if_pos (by omega)]

/-- C10: for every URL string, the name `generateFilename` returns contains
none of the bytes `:`, `/` and `.`; so it does not begin with `http://` or
`https://`, has no path separator and no `..` in it. -/
theorem generateFilename_filesystem_safe (rawUrl : GoString) :
    ∃ name, generateFilename rawUrl = .ok name ∧
      (∀ b ∈ name, b ≠ 58 ∧ b ≠ 47 ∧ b ≠ 46) ∧
      hasPrefix name (str "http://") = false ∧
      hasPrefix name (str "https://") = false ∧
      ¬ (str "/") <:+: name ∧
      ¬ (str "..") <:+: name := by
  obtain ⟨name, h, -, hsafe⟩ := generateFilename_spec rawUrl
  refine ⟨name, h, hsafe, ?_, ?_, ?_, ?_⟩
  · rw [Bool.eq_false_iff]
    intro hp
    have hpre : str "http://" <+: name := List.isPrefixOf_iff_prefix.mp hp
    have hmem : (58 : Nat) ∈ name := hpre.subset (by decide)
    exact (hsafe 58 hmem).1 rfl
  · rw [Bool.eq_false_iff]
    intro hp
    have hpre : str "https://" <+: name := List.isPrefixOf_iff_prefix.mp hp
    have hmem : (58 : Nat) ∈ name := hpre.subset (by decide)
    exact (hsafe 58 hmem).1 rfl
  · intro hin
    have hmem : (47 : Nat) ∈ name := hin.subset (by decide)
    exact (hsafe 47 hmem).2.1 rfl
  · intro hin
    have hmem : (46 : Nat) ∈ name := hin.subset (by decide)
    exact (hsafe 46 hmem).2.2 rfl

/-! ## The steps of one pass -/

theorem str_html : str ".html" = [46, 104, 116, 109, 108] := by decide

theorem str_png : str ".png" = [46, 112, 110, 103] := by decide

theorem reportFile_eq : ReportFile = str "scan_report.lo" ++ [103] := by decide

theorem html_ne_report (base : GoString) : base ++ str ".html" ≠ ReportFile := by
  intro h
  have h2 : (base ++ [46, 104, 116, 109]) ++ [108] = str "scan_report.lo" ++ [103] := by
    rw [← reportFile_eq, ← h, str_html]
    simp
  have h3 := (List.append_inj' h2 rfl).2
  simp at h3

theorem png_ne_report (base : GoString) : base ++ str ".png" ≠ ReportFile := by
  intro h
  have h2 : (base ++ [46, 112]) ++ [110, 103] = str "scan_report.l" ++ [111, 103] := by
    have e : ReportFile = str "scan_report.l" ++ [111, 103] := by decide
    rw [← e, ← h, str_png]
    simp
  have h3 := (List.append_inj' h2 rfl).2
  simp at h3

theorem html_ne_png (base : GoString) : base ++ str ".html" ≠ base ++ str ".png" := by
  intro h
  have h2 := List.append_cancel_left h
  rw [str_html, str_png] at h2
  simp at h2

theorem logToReport_trace (w : World) (i : Nat) (st : State) (url status msg : GoString) :
    (logToReport w i st url status msg).trace = st.trace ++ [.logToReport url status msg] := by
  unfold logToReport
  cases w.reportAppend i <;> rfl

theorem logToReport_fs_other (w : World) (i : Nat) (st : State) (url status msg : GoString)
    (name : GoString) (h : name ≠ ReportFile) :
    (logToReport w i st url status msg).fs name = st.fs name := by
  unfold logToReport
  cases w.reportAppend i <;> simp [State.emit, FS.set, h]

theorem logToReport_fs_report (w : World) (i : Nat) (st : State) (url status msg : GoString)
    (h : w.reportAppend i = .ok) :
    (logToReport w i st url status msg).fs ReportFile
      = some ((st.fs ReportFile).getD [] ++ reportLine url status msg) := by
  unfold logToReport
  rw [h]
  simp [State.emit, FS.set]

theorem takeScreenshot_trace (w : World) (i : Nat) (st : State) (url filename : GoString) :
    (takeScreenshot w i st url filename).1.trace
      = st.trace ++ [.takeScreenshot url filename] := by
  unfold takeScreenshot
  cases w.render i url <;> rfl

theorem takeScreenshot_error (w : World) (i : Nat) (st : State) (url filename : GoString) :
    (takeScreenshot w i st url filename).2 = captureError w i url := by
  unfold takeScreenshot captureError
  cases w.render i url with
  | error e => rfl
  | ok buf => cases w.pngWrite i <;> rfl

theorem takeScreenshot_fs_other (w : World) (i : Nat) (st : State) (url filename : GoString)
    (name : GoString) (h : name ≠ filename) :
    (takeScreenshot w i st url filename).1.fs name = st.fs name := by
  unfold takeScreenshot
  cases w.render i url with
  | error e => rfl
  | ok buf => cases w.pngWrite i <;> simp [osWriteFile, State.emit, FS.set, h]

theorem takeScreenshot_fs_render_error (w : World) (i : Nat) (st : State)
    (url filename err : GoString) (h : w.render i url = .error err) :
    (takeScreenshot w i st url filename).1.fs = st.fs := by
  unfold takeScreenshot
  rw [h]
  rfl

theorem takeScreenshot_fs_ok (w : World) (i : Nat) (st : State) (url filename buf : GoString)
    (h : w.render i url = .ok buf) (hw : w.pngWrite i = .ok) :
    (takeScreenshot w i st url filename).1.fs filename = some buf := by
  unfold takeScreenshot
  rw [h]
  simp [hw, osWriteFile, FS.set]

theorem takeScreenshot_fs_open_failed (w : World) (i : Nat) (st : State)
    (url filename err : GoString) (h : w.pngWrite i = .openFailed err) :
    (takeScreenshot w i st url filename).1.fs = st.fs := by
  unfold takeScreenshot
  cases w.render i url with
  | error e => rfl
  | ok buf => simp [h, osWriteFile, State.emit]

theorem takeScreenshot_fs_torn (w : World) (i : Nat) (st : State)
    (url filename buf err : GoString) (n : Nat) (h : w.render i url = .ok buf)
    (hw : w.pngWrite i = .writeFailed n err) :
    (takeScreenshot w i st url filename).1.fs filename = some (buf.take n) := by
  unfold takeScreenshot
  rw [h]
  simp [hw, osWriteFile, FS.set]

theorem captureError_cases (w : World) (i : Nat) (url : GoString)
    (h : captureError w i url ≠ none) :
    (∃ err, w.render i url = .error err) ∨ (∃ err, w.pngWrite i = .openFailed err) ∨
      (∃ buf n err, w.render i url = .ok buf ∧ w.pngWrite i = .writeFailed n err) := by
  unfold captureError at h
  cases hr : w.render i url with
  | error e => exact Or.inl ⟨e, rfl⟩
  | ok buf =>
    cases hp : w.pngWrite i with
    | ok => simp [hr, hp] at h
    | openFailed e => exact Or.inr (Or.inl ⟨e, rfl⟩)
    | writeFailed n e => exact Or.inr (Or.inr ⟨buf, n, e, rfl, rfl⟩)

theorem logToReport_fs_report_getD (w : World) (i : Nat) (st : State)
    (url status msg : GoString) :
    ((logToReport w i st url status msg).fs ReportFile).getD []
      = (st.fs ReportFile).getD []
        ++ appendedText (w.reportAppend i) (reportLine url status msg) := by
  unfold logToReport
  cases w.reportAppend i <;> simp [State.emit, FS.set, appendedText]

theorem osWriteFile_fs_other (fs : FS) (file data name : GoString) (o : IoOutcome)
    (h : name ≠ file) : (osWriteFile fs file data o).1 name = fs name := by
  cases o <;> simp [osWriteFile, FS.set, h]

/-- One pass over an entry that is blank after trimming changes nothing. -/
theorem loopBody_blank (w : World) (i : Nat) (rawUrl : GoString) (st : State)
    (h : trimSpace rawUrl = []) : loopBody w i rawUrl st = (st, none) := by
  simp [loopBody, h]

/-- One pass over an entry whose fetch fails. -/
theorem loopBody_fetch_error (w : World) (i : Nat) (rawUrl : GoString) (st : State)
    (err : GoString) (hnb : trimSpace rawUrl ≠ [])
    (hfetch : fetchHTML (w.http i (trimSpace rawUrl)) = .error err) :
    loopBody w i rawUrl st
      = (logToReport w i (st.emit (.fetchHTML (trimSpace rawUrl))) (trimSpace rawUrl)
          (str "PASSIVE") (str "HTTP Error: " ++ err), none) := by
  obtain ⟨name, hname, -⟩ := generateFilename_spec (trimSpace rawUrl)
  simp [loopBody, hnb, hname, hfetch]

/-- One pass over an entry whose fetch succeeds. -/
theorem loopBody_fetch_ok (w : World) (i : Nat) (rawUrl : GoString) (st : State)
    (base doc : GoString) (hnb : trimSpace rawUrl ≠ [])
    (hname : generateFilename (trimSpace rawUrl) = .ok base)
    (hfetch : fetchHTML (w.http i (trimSpace rawUrl)) = .ok doc) :
    loopBody w i rawUrl st
      = (logToReport w i
          (takeScreenshot w i (afterHtml w i st (trimSpace rawUrl) base doc)
            (trimSpace rawUrl) (base ++ str ".png")).1
          (trimSpace rawUrl)
          (if captureError w i (trimSpace rawUrl) = none then str "ACTIVE" else str "PARTIAL")
          (if captureError w i (trimSpace rawUrl) = none
            then str "HTML & PNG Saved (" ++ base ++ str ")"
            else str "HTML OK, Screenshot FAILED"), none) := by
  have herr := takeScreenshot_error w i (afterHtml w i st (trimSpace rawUrl) base doc)
    (trimSpace rawUrl) (base ++ str ".png")
  simp only [loopBody, hnb, hname, hfetch, if_false]
  change (match (takeScreenshot w i (afterHtml w i st (trimSpace rawUrl) base doc)
    (trimSpace rawUrl) (base ++ str ".png")).2 with
    | some _ => _
    | none => _) = _
  rw [herr]
  cases captureError w i (trimSpace rawUrl) <;> simp <;> rfl

theorem afterHtml_trace (w : World) (i : Nat) (st : State) (url base doc : GoString) :
    (afterHtml w i st url base doc).trace = st.trace ++ [.fetchHTML url] := rfl

theorem afterHtml_fs_other (w : World) (i : Nat) (st : State) (url base doc name : GoString)
    (h : name ≠ base ++ str ".html") : (afterHtml w i st url base doc).fs name = st.fs name :=
  osWriteFile_fs_other st.fs _ doc name (w.htmlWrite i) h

theorem afterHtml_fs_html (w : World) (i : Nat) (st : State) (url base doc : GoString)
    (h : w.htmlWrite i = .ok) :
    (afterHtml w i st url base doc).fs (base ++ str ".html") = some doc := by
  simp [afterHtml, h, osWriteFile, FS.set]

/-! ## The outcome of one target -/

/-- C2: when the fetch of a non-blank target fails, the pass over it calls
`fetchHTML` and then `logToReport` and nothing else: `takeScreenshot` is not
called, one outcome is recorded, with the tag `PASSIVE` and the fetch error
(behind the words `HTTP Error: `) as detail, and no file other than the
report is touched, so no image is written. -/
theorem fetch_failure_is_passive (w : World) (i : Nat) (rawUrl : GoString) (st : State)
    (err : GoString) (hnb : trimSpace rawUrl ≠ [])
    (hfetch : fetchHTML (w.http i (trimSpace rawUrl)) = .error err) :
    (loopBody w i rawUrl st).2 = none ∧
    (loopBody w i rawUrl st).1.trace = st.trace ++
      [.fetchHTML (trimSpace rawUrl),
       .logToReport (trimSpace rawUrl) (str "PASSIVE") (str "HTTP Error: " ++ err)] ∧
    (∀ e ∈ (loopBody w i rawUrl st).1.trace, e.isCapture = true → e ∈ st.trace) ∧
    outcomes (loopBody w i rawUrl st).1.trace = outcomes st.trace ++
      [⟨trimSpace rawUrl, str "PASSIVE", str "HTTP Error: " ++ err⟩] ∧
    (∀ name, name ≠ ReportFile → (loopBody w i rawUrl st).1.fs name = st.fs name) ∧
    (∀ base, (loopBody w i rawUrl st).1.fs (base ++ str ".png") = st.fs (base ++ str ".png")) := by
  rw [loopBody_fetch_error w i rawUrl st err hnb hfetch]
  have htrace : (logToReport w i (st.emit (.fetchHTML (trimSpace rawUrl))) (trimSpace rawUrl)
      (str "PASSIVE") (str "HTTP Error: " ++ err)).trace = st.trace ++
      [.fetchHTML (trimSpace rawUrl),
       .logToReport (trimSpace rawUrl) (str "PASSIVE") (str "HTTP Error: " ++ err)] := by
    rw [logToReport_trace]
    simp [State.emit]
  refine ⟨rfl, htrace, ?_, ?_, ?_, ?_⟩
  · intro e he hcap
    simp only [htrace, List.mem_append, List.mem_cons, List.mem_singleton,
      List.not_mem_nil, or_false] at he
    rcases he with he | rfl | rfl
    · exact he
    · simp [Event.isCapture] at hcap
    · simp [Event.isCapture] at hcap
  · simp only [htrace, outcomes, List.filterMap_append]
    simp
  · intro name hne
    rw [logToReport_fs_other _ _ _ _ _ _ _ hne]
    rfl
  · intro base
    rw [logToReport_fs_other _ _ _ _ _ _ _ (png_ne_report base)]
    rfl

theorem fetch_failure_is_passive_witness :
    trimSpace (str " http://a.example/ ") ≠ [] ∧
    fetchHTML (unreachableWorld.http 0 (trimSpace (str " http://a.example/ ")))
      = .error (str "socks connect tcp 127.0.0.1:9150: connection refused") ∧
    (loopBody unreachableWorld 0 (str " http://a.example/ ") ⟨emptyFS, []⟩).1.trace =
      [] ++ [.fetchHTML (trimSpace (str " http://a.example/ ")),
        .logToReport (trimSpace (str " http://a.example/ ")) (str "PASSIVE")
          (str "HTTP Error: " ++ str "socks connect tcp 127.0.0.1:9150: connection refused")] :=
  ⟨by decide, by decide,
    (fetch_failure_is_passive unreachableWorld 0 (str " http://a.example/ ") ⟨emptyFS, []⟩
      (str "socks connect tcp 127.0.0.1:9150: connection refused")
      (by decide) (by decide)).2.1⟩

/-- C3, as the claim states it, fails: in a run over the same target listed
twice, the second pass has a successful fetch and a failed capture and records
`PARTIAL`, and the image of the first pass is on disk when it is over.  And a
capture that fails while the image is being written leaves the bytes written so
far under `<name>.png`. -/
theorem partial_outcome_with_image_on_disk :
    (trimSpace (str "http://a.example/") ≠ [] ∧
      generateFilename (trimSpace (str "http://a.example/")) = .ok (str "a_example") ∧
      fetchHTML (repeatWorld.http 1 (trimSpace (str "http://a.example/")))
        = .ok (str "<html>doc</html>") ∧
      captureError repeatWorld 1 (trimSpace (str "http://a.example/"))
        = some (str "context deadline exceeded") ∧
      (main repeatWorld emptyFS).1 = .normal ∧
      (outcomes (main repeatWorld emptyFS).2.trace).map (fun o => (o.target, o.status))
        = [(str "http://a.example/", str "ACTIVE"), (str "http://a.example/", str "PARTIAL")] ∧
      (main repeatWorld emptyFS).2.fs (str "a_example.png") = some (str "png-bytes")) ∧
    (fetchHTML (tornImageWorld.http 0 (trimSpace (str "http://a.example/")))
        = .ok (str "<html>doc</html>") ∧
      captureError tornImageWorld 0 (trimSpace (str "http://a.example/"))
        = some (str "write a_example.png: no space left on device") ∧
      (outcomes (main tornImageWorld emptyFS).2.trace).map (fun o => (o.target, o.status))
        = [(str "http://a.example/", str "PARTIAL")] ∧
      (main tornImageWorld emptyFS).2.fs (str "a_example.png") = some (str "png")) := by
  decide

/-- C3, amended: when the fetch of a non-blank target succeeds and its capture
fails, the pass calls `fetchHTML`, `takeScreenshot` and `logToReport` once each
and records one outcome, with the tag `PARTIAL`; the document is on disk under
`<name>.html` when its write succeeded; and the pass leaves `<name>.png` as it
found it, absent if it was absent, whether the capture failed in the rendering
engine or because the image file could not be opened.  The one exception is a
capture that fails while the image is being written: then `<name>.png` holds
the bytes written so far. -/
theorem capture_failure_gives_partial_tag (w : World) (i : Nat) (rawUrl : GoString) (st : State)
    (base doc : GoString) (hnb : trimSpace rawUrl ≠ [])
    (hname : generateFilename (trimSpace rawUrl) = .ok base)
    (hfetch : fetchHTML (w.http i (trimSpace rawUrl)) = .ok doc)
    (hshot : captureError w i (trimSpace rawUrl) ≠ none) :
    (loopBody w i rawUrl st).2 = none ∧
    (loopBody w i rawUrl st).1.trace = st.trace ++
      [.fetchHTML (trimSpace rawUrl),
       .takeScreenshot (trimSpace rawUrl) (base ++ str ".png"),
       .logToReport (trimSpace rawUrl) (str "PARTIAL") (str "HTML OK, Screenshot FAILED")] ∧
    outcomes (loopBody w i rawUrl st).1.trace = outcomes st.trace ++
      [⟨trimSpace rawUrl, str "PARTIAL", str "HTML OK, Screenshot FAILED"⟩] ∧
    (w.htmlWrite i = .ok → (loopBody w i rawUrl st).1.fs (base ++ str ".html") = some doc) ∧
    ((∃ err, w.render i (trimSpace rawUrl) = .error err) ∨
      (∃ err, w.pngWrite i = .openFailed err) ∨
      (∃ buf n err, w.render i (trimSpace rawUrl) = .ok buf ∧
        w.pngWrite i = .writeFailed n err)) ∧
    ((∃ err, w.render i (trimSpace rawUrl) = .error err) →
      (loopBody w i rawUrl st).1.fs (base ++ str ".png") = st.fs (base ++ str ".png")) ∧
    ((∃ err, w.pngWrite i = .openFailed err) →
      (loopBody w i rawUrl st).1.fs (base ++ str ".png") = st.fs (base ++ str ".png")) ∧
    (∀ buf n err, w.render i (trimSpace rawUrl) = .ok buf → w.pngWrite i = .writeFailed n err →
      (loopBody w i rawUrl st).1.fs (base ++ str ".png") = some (buf.take n)) ∧
    (st.fs (base ++ str ".png") = none →
      (∀ buf n err, ¬ (w.render i (trimSpace rawUrl) = .ok buf ∧
        w.pngWrite i = .writeFailed n err)) →
      (loopBody w i rawUrl st).1.fs (base ++ str ".png") = none) := by
  rw [loopBody_fetch_ok w i rawUrl st base doc hnb hname hfetch]
  simp only [if_neg hshot]
  have htrace : (logToReport w i
      (takeScreenshot w i (afterHtml w i st (trimSpace rawUrl) base doc)
        (trimSpace rawUrl) (base ++ str ".png")).1
      (trimSpace rawUrl) (str "PARTIAL") (str "HTML OK, Screenshot FAILED")).trace = st.trace ++
      [.fetchHTML (trimSpace rawUrl),
       .takeScreenshot (trimSpace rawUrl) (base ++ str ".png"),
       .logToReport (trimSpace rawUrl) (str "PARTIAL") (str "HTML OK, Screenshot FAILED")] := by
    rw [logToReport_trace, takeScreenshot_trace, afterHtml_trace]
    simp
  have hrender : (∃ err, w.render i (trimSpace rawUrl) = .error err) →
      (logToReport w i
        (takeScreenshot w i (afterHtml w i st (trimSpace rawUrl) base doc)
          (trimSpace rawUrl) (base ++ str ".png")).1
        (trimSpace rawUrl) (str "PARTIAL") (str "HTML OK, Screenshot FAILED")).fs
        (base ++ str ".png") = st.fs (base ++ str ".png") := by
    rintro ⟨err, herr⟩
    rw [logToReport_fs_other _ _ _ _ _ _ _ (png_ne_report base),
      takeScreenshot_fs_render_error _ _ _ _ _ err herr,
      afterHtml_fs_other _ _ _ _ _ _ _ (html_ne_png base).symm]
  have hopen : (∃ err, w.pngWrite i = .openFailed err) →
      (logToReport w i
        (takeScreenshot w i (afterHtml w i st (trimSpace rawUrl) base doc)
          (trimSpace rawUrl) (base ++ str ".png")).1
        (trimSpace rawUrl) (str "PARTIAL") (str "HTML OK, Screenshot FAILED")).fs
        (base ++ str ".png") = st.fs (base ++ str ".png") := by
    rintro ⟨err, herr⟩
    rw [logToReport_fs_other _ _ _ _ _ _ _ (png_ne_report base),
      takeScreenshot_fs_open_failed _ _ _ _ _ err herr,
      afterHtml_fs_other _ _ _ _ _ _ _ (html_ne_png base).symm]
  have hcases := captureError_cases w i (trimSpace rawUrl) hshot
  refine ⟨trivial, htrace, ?_, ?_, hcases, hrender, hopen, ?_, ?_⟩
  · simp only [htrace, outcomes, List.filterMap_append]
    simp
  · intro hw
    rw [logToReport_fs_other _ _ _ _ _ _ _ (html_ne_report base),
      takeScreenshot_fs_other _ _ _ _ _ _ (html_ne_png base),
      afterHtml_fs_html _ _ _ _ _ _ hw]
  · intro buf n err hr hp
    rw [logToReport_fs_other _ _ _ _ _ _ _ (png_ne_report base),
      takeScreenshot_fs_torn _ _ _ _ _ buf err n hr hp]
  · intro habs hnot
    rcases hcases with h | h | ⟨buf, n, err, hr, hp⟩
    · rw [hrender h, habs]
    · rw [hopen h, habs]
    · exact absurd ⟨hr, hp⟩ (hnot buf n err)

theorem capture_failure_gives_partial_tag_witness :
    trimSpace (str "http://a.example/") ≠ [] ∧
    generateFilename (trimSpace (str "http://a.example/")) = .ok (str "a_example") ∧
    fetchHTML (blockedImageWorld.http 0 (trimSpace (str "http://a.example/")))
      = .ok (str "<html>doc</html>") ∧
    captureError blockedImageWorld 0 (trimSpace (str "http://a.example/")) ≠ none ∧
    outcomes (loopBody blockedImageWorld 0 (str "http://a.example/") ⟨emptyFS, []⟩).1.trace =
      outcomes [] ++ [⟨trimSpace (str "http://a.example/"), str "PARTIAL",
        str "HTML OK, Screenshot FAILED"⟩] :=
  ⟨by decide, by decide, by decide, by decide,
    (capture_failure_gives_partial_tag blockedImageWorld 0 (str "http://a.example/")
      ⟨emptyFS, []⟩ (str "a_example") (str "<html>doc</html>")
      (by decide) (by decide) (by decide) (by decide)).2.2.1⟩

/-- C4: the program at the failing input.  The only target is fetched and
captured without error while its document cannot be written: the run records
the outcome `ACTIVE`, the report says `HTML & PNG Saved (a_example)`, the image
is on disk, and there is no `a_example.html`. -/
theorem active_outcome_without_document :
    trimSpace (str "http://a.example/") ≠ [] ∧
    generateFilename (trimSpace (str "http://a.example/")) = .ok (str "a_example") ∧
    fetchHTML (blockedHtmlWorld.http 0 (trimSpace (str "http://a.example/")))
      = .ok (str "<html>doc</html>") ∧
    captureError blockedHtmlWorld 0 (trimSpace (str "http://a.example/")) = none ∧
    (main blockedHtmlWorld emptyFS).1 = .normal ∧
    outcomes (main blockedHtmlWorld emptyFS).2.trace
      = [⟨str "http://a.example/", str "ACTIVE", str "HTML & PNG Saved (a_example)"⟩] ∧
    (main blockedHtmlWorld emptyFS).2.fs ReportFile
      = some (str ("SCAN REPORT - 2024-05-01T10:00:00Z\nTarget | Status | Details\n"
          ++ "------------------------------------------------------------\n"
          ++ "http://a.example/              | ACTIVE   | HTML & PNG Saved (a_example)\n")) ∧
    (main blockedHtmlWorld emptyFS).2.fs (str "a_example.png") = some (str "png-bytes") ∧
    (main blockedHtmlWorld emptyFS).2.fs (str "a_example.html") = none ∧
    captureError blockedImageWorld 0 (trimSpace (str "http://a.example/"))
      = some (str "open a_example.png: is a directory") ∧
    outcomes (main blockedImageWorld emptyFS).2.trace
      = [⟨str "http://a.example/", str "PARTIAL", str "HTML OK, Screenshot FAILED"⟩] := by
  decide

/-- When the fetch of a non-blank target and its capture both succeed, the pass
records one outcome, with the tag `ACTIVE`, and the image is on disk under
`<name>.png`; the document is on disk under `<name>.html` when its write
succeeded. -/
theorem loopBody_both_ok (w : World) (i : Nat) (rawUrl : GoString) (st : State)
    (base doc buf : GoString) (hnb : trimSpace rawUrl ≠ [])
    (hname : generateFilename (trimSpace rawUrl) = .ok base)
    (hfetch : fetchHTML (w.http i (trimSpace rawUrl)) = .ok doc)
    (hrender : w.render i (trimSpace rawUrl) = .ok buf) (hpng : w.pngWrite i = .ok) :
    captureError w i (trimSpace rawUrl) = none ∧
    (loopBody w i rawUrl st).2 = none ∧
    (loopBody w i rawUrl st).1.trace = st.trace ++
      [.fetchHTML (trimSpace rawUrl),
       .takeScreenshot (trimSpace rawUrl) (base ++ str ".png"),
       .logToReport (trimSpace rawUrl) (str "ACTIVE")
         (str "HTML & PNG Saved (" ++ base ++ str ")")] ∧
    outcomes (loopBody w i rawUrl st).1.trace = outcomes st.trace ++
      [⟨trimSpace rawUrl, str "ACTIVE", str "HTML & PNG Saved (" ++ base ++ str ")"⟩] ∧
    (loopBody w i rawUrl st).1.fs (base ++ str ".png") = some buf ∧
    (w.htmlWrite i = .ok → (loopBody w i rawUrl st).1.fs (base ++ str ".html") = some doc) := by
  have hcap : captureError w i (trimSpace rawUrl) = none := by
    simp [captureError, hrender, hpng]
  rw [loopBody_fetch_ok w i rawUrl st base doc hnb hname hfetch]
  simp only [if_pos hcap]
  have htrace : (logToReport w i
      (takeScreenshot w i (afterHtml w i st (trimSpace rawUrl) base doc)
        (trimSpace rawUrl) (base ++ str ".png")).1
      (trimSpace rawUrl) (str "ACTIVE") (str "HTML & PNG Saved (" ++ base ++ str ")")).trace
      = st.trace ++
      [.fetchHTML (trimSpace rawUrl),
       .takeScreenshot (trimSpace rawUrl) (base ++ str ".png"),
       .logToReport (trimSpace rawUrl) (str "ACTIVE")
         (str "HTML & PNG Saved (" ++ base ++ str ")")] := by
    rw [logToReport_trace, takeScreenshot_trace, afterHtml_trace]
    simp
  refine ⟨hcap, trivial, htrace, ?_, ?_, ?_⟩
  · simp only [htrace, outcomes, List.filterMap_append]
    simp
  · rw [logToReport_fs_other _ _ _ _ _ _ _ (png_ne_report base),
      takeScreenshot_fs_ok _ _ _ _ _ buf hrender hpng]
  · intro hw
    rw [logToReport_fs_other _ _ _ _ _ _ _ (html_ne_report base),
      takeScreenshot_fs_other _ _ _ _ _ _ (html_ne_png base),
      afterHtml_fs_html _ _ _ _ _ _ hw]

/-! ## The main loop -/

/-- Every pass ends without a panic and records the trimmed entry once, unless
the entry is blank. -/
theorem loopBody_targets (w : World) (i : Nat) (rawUrl : GoString) (st : State) :
    (loopBody w i rawUrl st).2 = none ∧
    (outcomes (loopBody w i rawUrl st).1.trace).map Outcome.target
      = (outcomes st.trace).map Outcome.target
        ++ (if trimSpace rawUrl = [] then [] else [trimSpace rawUrl]) := by
  by_cases hb : trimSpace rawUrl = []
  · rw [loopBody_blank w i rawUrl st hb]
    simp [hb]
  · obtain ⟨base, hname, -⟩ := generateFilename_spec (trimSpace rawUrl)
    cases hf : fetchHTML (w.http i (trimSpace rawUrl)) with
    | error err =>
      rw [loopBody_fetch_error w i rawUrl st err hb hf]
      simp [logToReport_trace, State.emit, outcomes, List.filterMap_append, hb]
    | ok doc =>
      rw [loopBody_fetch_ok w i rawUrl st base doc hb hname hf]
      simp [logToReport_trace, takeScreenshot_trace, afterHtml_trace, outcomes,
        List.filterMap_append, hb]

theorem mainLoop_cons (w : World) (i : Nat) (rawUrl : GoString) (rest : List GoString)
    (st st1 : State) (h : loopBody w i rawUrl st = (st1, none)) :
    mainLoop w i (rawUrl :: rest) st = mainLoop w (i + 1) rest st1 := by
  simp [mainLoop, h]

/-- The loop runs to the end of the list and records the non-blank entries,
trimmed, in the order of the list. -/
theorem mainLoop_targets (w : World) (urls : List GoString) :
    ∀ (i : Nat) (st : State),
      (mainLoop w i urls st).2 = none ∧
      (outcomes (mainLoop w i urls st).1.trace).map Outcome.target
        = (outcomes st.trace).map Outcome.target
          ++ (urls.map trimSpace).filter (fun t => t ≠ []) := by
  induction urls with
  | nil =>
    intro i st
    simp [mainLoop]
  | cons rawUrl rest ih =>
    intro i st
    obtain ⟨hnone, htargets⟩ := loopBody_targets w i rawUrl st
    have hpair : loopBody w i rawUrl st = ((loopBody w i rawUrl st).1, none) := by
      rw [← hnone]
    rw [mainLoop_cons w i rawUrl rest st _ hpair]
    obtain ⟨h1, h2⟩ := ih (i + 1) (loopBody w i rawUrl st).1
    refine ⟨h1, ?_⟩
    rw [h2, htargets]
    by_cases hb : trimSpace rawUrl = [] <;> simp [hb]

/-- Up to the loop: with a client, a confirmed Tor exit and a target list, the
run is the loop over the list, started once the report has been created. -/
theorem main_past_gate (w : World) (fs : FS) (r : TorCheckIP) (urls : List GoString)
    (hsocks : w.socks5 = none) (htor : w.torApi = .body (.ok r)) (hr : r.IsTor = true)
    (hload : loadTargets w (str "targets.yaml") = .ok urls) :
    main w fs =
      (match (mainLoop w 0 urls (initReportFile w
          ⟨fs, [.torCheckGet, .loadTargets (str "targets.yaml")]⟩)).2 with
        | some p => .panic p
        | none => .normal,
       (mainLoop w 0 urls (initReportFile w
          ⟨fs, [.torCheckGet, .loadTargets (str "targets.yaml")]⟩)).1) := by
  simp only [main, getTorHttpClient, hsocks, verifyTorConnection, htor, hr, hload]
  cases h : mainLoop w 0 urls (initReportFile w
      ⟨fs, [.torCheckGet, .loadTargets (str "targets.yaml")]⟩) with
  | mk st p =>
    have h2 : mainLoop w 0 urls (initReportFile w
        (State.emit (State.emit ⟨fs, []⟩ .torCheckGet) (.loadTargets (str "targets.yaml"))))
        = (st, p) := h
    cases p <;> simp [h2]

/-- C5: once the client is built, the Tor exit confirmed and the target list
loaded, the run ends normally whatever the fetches, captures and file
operations do, and the targets of the recorded outcomes are the trimmed
non-blank entries of the list, in the order of the list; so there are as many
outcomes as non-blank entries. -/
theorem one_outcome_per_nonblank_target (w : World) (fs : FS) (r : TorCheckIP)
    (urls : List GoString) (hsocks : w.socks5 = none) (htor : w.torApi = .body (.ok r))
    (hr : r.IsTor = true) (hload : loadTargets w (str "targets.yaml") = .ok urls) :
    (main w fs).1 = .normal ∧
    (outcomes (main w fs).2.trace).map Outcome.target
      = (urls.map trimSpace).filter (fun t => t ≠ []) ∧
    (outcomes (main w fs).2.trace).length
      = (urls.filter (fun t => trimSpace t ≠ [])).length := by
  rw [main_past_gate w fs r urls hsocks htor hr hload]
  obtain ⟨h1, h2⟩ := mainLoop_targets w urls 0
    (initReportFile w ⟨fs, [.torCheckGet, .loadTargets (str "targets.yaml")]⟩)
  have h3 : outcomes (initReportFile w
      ⟨fs, [.torCheckGet, .loadTargets (str "targets.yaml")]⟩).trace = [] := rfl
  rw [h3] at h2
  simp only [List.map_nil, List.nil_append] at h2
  refine ⟨by rw [h1], h2, ?_⟩
  have h4 := congrArg List.length h2
  rw [List.length_map] at h4
  rw [h4, List.filter_map, List.length_map]
  rfl

theorem one_outcome_per_nonblank_target_witness :
    scenarioWorld.socks5 = none ∧
    scenarioWorld.torApi = .body (.ok ⟨true, str "185.220.101.1"⟩) ∧
    loadTargets scenarioWorld (str "targets.yaml") = .ok scenarioTargets ∧
    (outcomes (main scenarioWorld emptyFS).2.trace).length
      = (scenarioTargets.filter (fun t => trimSpace t ≠ [])).length :=
  ⟨rfl, rfl, rfl,
    (one_outcome_per_nonblank_target scenarioWorld emptyFS ⟨true, str "185.220.101.1"⟩
      scenarioTargets rfl rfl rfl rfl).2.2⟩

/-! ## The gates before the loop -/

/-- C1: when the Tor check decodes an answer whose `IsTor` is false, the run
ends in `log.Fatalf` before the target list is loaded: the only event of the
run, if any, is the GET of the check, no `fetchHTML` and no `takeScreenshot`
call is made, and no file is touched. -/
theorem non_tor_exit_aborts_before_targets (w : World) (fs : FS) (r : TorCheckIP)
    (htor : w.torApi = .body (.ok r)) (hr : r.IsTor = false) :
    (∃ msg, (main w fs).1 = .fatal msg) ∧
    (∀ e ∈ (main w fs).2.trace, e = .torCheckGet) ∧
    (main w fs).2.trace.filter Event.isTargetAccess = [] ∧
    (main w fs).2.fs = fs := by
  cases hs : w.socks5 with
  | some err => simp [main, getTorHttpClient, hs]
  | none =>
    simp [main, getTorHttpClient, hs, verifyTorConnection, htor, hr, State.emit,
      Event.isTargetAccess]

theorem non_tor_exit_aborts_before_targets_witness :
    leakWorld.torApi = .body (.ok ⟨false, str "203.0.113.7"⟩) ∧
    (main leakWorld emptyFS).2.trace.filter Event.isTargetAccess = [] :=
  ⟨rfl, (non_tor_exit_aborts_before_targets leakWorld emptyFS ⟨false, str "203.0.113.7"⟩
    rfl rfl).2.2.1⟩

/-- C8, as the claim states it, fails: when `targets.yaml` cannot be read, the
run ends in `log.Fatalf` after the GET of the Tor check has been made. -/
theorem load_failure_follows_tor_check :
    loadTargets noTargetsFileWorld (str "targets.yaml")
      = .error (str "open targets.yaml: no such file or directory") ∧
    (main noTargetsFileWorld emptyFS).1
      = .fatal (str "[FATAL] targets.yaml okunamadı: open targets.yaml: no such file or directory") ∧
    (main noTargetsFileWorld emptyFS).2.trace
      = [.torCheckGet, .loadTargets (str "targets.yaml")] ∧
    (main noTargetsFileWorld emptyFS).2.trace.filter Event.isNetwork = [.torCheckGet] := by
  decide

/-- C8, amended: when `loadTargets` fails, the run ends in `log.Fatalf` with no
`fetchHTML` and no `takeScreenshot` call made and no file touched; the GET of
the Tor check is the one network request made, before `loadTargets` is called. -/
theorem load_failure_aborts_before_targets (w : World) (fs : FS) (err : GoString)
    (hload : loadTargets w (str "targets.yaml") = .error err) :
    (∃ msg, (main w fs).1 = .fatal msg) ∧
    (main w fs).2.trace.filter Event.isTargetAccess = [] ∧
    (main w fs).2.fs = fs ∧
    (Event.loadTargets (str "targets.yaml") ∈ (main w fs).2.trace →
      (main w fs).1 = .fatal (str "[FATAL] targets.yaml okunamadı: " ++ err) ∧
      (main w fs).2.trace = [.torCheckGet, .loadTargets (str "targets.yaml")] ∧
      (main w fs).2.trace.filter Event.isNetwork = [.torCheckGet]) := by
  cases hs : w.socks5 with
  | some e => simp [main, getTorHttpClient, hs]
  | none =>
    cases ht : w.torApi with
    | getError e =>
      simp [main, getTorHttpClient, hs, verifyTorConnection, ht, State.emit,
        Event.isTargetAccess]
    | body d =>
      cases d with
      | error e =>
        simp [main, getTorHttpClient, hs, verifyTorConnection, ht, State.emit,
          Event.isTargetAccess]
      | ok r =>
        cases hr : r.IsTor with
        | false =>
          simp [main, getTorHttpClient, hs, verifyTorConnection, ht, hr, State.emit,
            Event.isTargetAccess]
        | true =>
          simp [main, getTorHttpClient, hs, verifyTorConnection, ht, hr, hload, State.emit,
            Event.isTargetAccess, Event.isNetwork]

theorem load_failure_aborts_before_targets_witness :
    loadTargets noTargetsFileWorld (str "targets.yaml")
      = .error (str "open targets.yaml: no such file or directory") ∧
    (main noTargetsFileWorld emptyFS).2.trace.filter Event.isTargetAccess = [] :=
  ⟨rfl, (load_failure_aborts_before_targets noTargetsFileWorld emptyFS
    (str "open targets.yaml: no such file or directory") rfl).2.1⟩

/-! ## The lines of the report -/

theorem runeCountFrom_ascii (s : GoString) (h : ∀ b ∈ s, b < 128) :
    runeCountFrom 0 s = s.length := by
  induction s with
  | nil => rfl
  | cons b rest ih =>
    have hb : b < 128 := h b (List.mem_cons_self b rest)
    have hrest : ∀ c ∈ rest, c < 128 := fun c hc => h c (List.mem_cons_of_mem b hc)
    simp only [runeCountFrom, decodeRune, if_pos hb, List.length_cons]
    rw [ih hrest]
    omega

theorem runeCount_ascii (s : GoString) (h : ∀ b ∈ s, b < 128) : runeCount s = s.length :=
  runeCountFrom_ascii s h

theorem padRight_length (width : Nat) (s : GoString) (h : ∀ b ∈ s, b < 128)
    (hlen : s.length ≤ width) : (padRight width s).length = width := by
  simp only [padRight, List.length_append, List.length_replicate, runeCount_ascii s h]
  omega

theorem str_sep : str " | " = [32, 124, 32] := by decide

theorem str_newline : str "\n" = [10] := by decide

/-- C9, as the claim states it, fails: a target of more than 30 bytes moves the
status and detail columns to the right, a target with a character outside
ASCII moves them by the extra bytes of its encoding, a status tag of more than
8 bytes moves the detail column, a target with a newline in it makes the
text two lines, and an append that is cut short leaves no line at all. -/
theorem report_columns_move :
    (logToReport (calmWorld []) 1
        (logToReport (calmWorld []) 0 ⟨emptyFS, []⟩
          (str "http://a.example/") (str "ACTIVE") (str "ok"))
        onionUrl (str "ACTIVE") (str "ok")).fs ReportFile
      = some (str ("http://a.example/              | ACTIVE   | ok\n"
          ++ "http://duckduckgogg42xjoc72x3sjasowoarfbgcmvfimaftt6twagswzczad.onion/"
          ++ " | ACTIVE   | ok\n")) ∧
    ((reportLine (str "http://a.example/") (str "ACTIVE") (str "ok")).drop 33).take 6
      = str "ACTIVE" ∧
    ((reportLine onionUrl (str "ACTIVE") (str "ok")).drop 33).take 6 = str "owoarf" ∧
    ((reportLine onionUrl (str "ACTIVE") (str "ok")).drop 73).take 6 = str "ACTIVE" ∧
    ((reportLine (str "http://é.example/") (str "ACTIVE") (str "ok")).drop 33).take 6
      = str " ACTIV" ∧
    (reportLine (str "http://a.example/") (str "ACTIVE") (str "ok")).drop 44 = str "ok\n" ∧
    (reportLine (str "http://a.example/") (str "UNREACHABLE") (str "ok")).drop 44
      = str " | ok\n" ∧
    (reportLine (str "http://a.example/\nx") (str "PASSIVE") (str "ok")).count 10 = 2 ∧
    (logToReport { calmWorld [] with reportAppend := fun _ => .writeFailed 5 (str "disk full") }
        0 ⟨emptyFS, []⟩ (str "http://a.example/") (str "ACTIVE") (str "ok")).fs ReportFile
      = some (str "http:") := by
  decide

/-- C9, amended.  What `logToReport` adds to the report is the whole line when
the append succeeds, nothing when the report cannot be opened, and the bytes
written when the write is cut short.  For every target, tag and detail the
line is the target, unshortened, then blanks that bring it to 30 runes if it
has fewer, ` | `, the tag, unshortened, then blanks that bring it to 8 runes if
it has fewer, ` | `, the detail and one newline; so the status column starts
`len(url) + (30 - runes(url)) + 3` bytes into the line and the detail column
`len(status) + (8 - runes(status)) + 3` bytes after that.  For an ASCII target
of at most 30 bytes and an ASCII tag of at most 8 bytes these are the bytes 33
and 44 of every line, and when neither target, tag nor detail has a newline in
it the newline at the end is the only one. -/
theorem report_line_columns (w : World) (i : Nat) (st : State) (url status msg : GoString) :
    ((logToReport w i st url status msg).fs ReportFile).getD []
      = (st.fs ReportFile).getD []
        ++ appendedText (w.reportAppend i) (reportLine url status msg) ∧
    (w.reportAppend i = .ok → (logToReport w i st url status msg).fs ReportFile
      = some ((st.fs ReportFile).getD [] ++ reportLine url status msg)) ∧
    ((∃ err, w.reportAppend i = .openFailed err) →
      (logToReport w i st url status msg).fs = st.fs) ∧
    (∀ n err, w.reportAppend i = .writeFailed n err →
      (logToReport w i st url status msg).fs ReportFile
        = some ((st.fs ReportFile).getD [] ++ (reportLine url status msg).take n)) ∧
    reportLine url status msg
      = url ++ List.replicate (30 - runeCount url) 32 ++ str " | "
        ++ status ++ List.replicate (8 - runeCount status) 32 ++ str " | " ++ msg ++ [10] ∧
    runeCount (url ++ List.replicate (30 - runeCount url) 32) = max 30 (runeCount url) ∧
    runeCount (status ++ List.replicate (8 - runeCount status) 32) = max 8 (runeCount status) ∧
    (reportLine url status msg).take url.length = url ∧
    ((reportLine url status msg).drop (url.length + (30 - runeCount url) + 3)).take
      status.length = status ∧
    (reportLine url status msg).drop (url.length + (30 - runeCount url) + 3
      + (status.length + (8 - runeCount status) + 3)) = msg ++ [10] ∧
    ((∀ b ∈ url, b < 128) → url.length ≤ 30 →
      ((reportLine url status msg).drop 33).take status.length = status ∧
      ((∀ b ∈ status, b < 128) → status.length ≤ 8 →
        (reportLine url status msg).drop 44 = msg ++ [10])) ∧
    (10 ∉ url → 10 ∉ status → 10 ∉ msg → (reportLine url status msg).count 10 = 1) := by
  have e0 : reportLine url status msg
      = url ++ List.replicate (30 - runeCount url) 32 ++ str " | "
        ++ status ++ List.replicate (8 - runeCount status) 32 ++ str " | " ++ msg ++ [10] := by
    simp [reportLine, padRight, str_newline, List.append_assoc]
  have e1 : reportLine url status msg
      = url ++ (List.replicate (30 - runeCount url) 32 ++ str " | " ++ padRight 8 status
          ++ str " | " ++ msg ++ str "\n") := by
    simp [reportLine, padRight, List.append_assoc]
  have e2 : reportLine url status msg
      = (padRight 30 url ++ str " | ") ++ (status ++ (List.replicate (8 - runeCount status) 32
          ++ str " | " ++ msg ++ str "\n")) := by
    simp [reportLine, padRight, List.append_assoc]
  have e3 : reportLine url status msg
      = (padRight 30 url ++ str " | " ++ padRight 8 status ++ str " | ") ++ (msg ++ [10]) := by
    simp [reportLine, str_newline, List.append_assoc]
  have l2 : (padRight 30 url ++ str " | ").length = url.length + (30 - runeCount url) + 3 := by
    simp only [padRight, str_sep, List.length_append, List.length_replicate, List.length_cons,
      List.length_nil]
  have l3 : (padRight 30 url ++ str " | " ++ padRight 8 status ++ str " | ").length
      = url.length + (30 - runeCount url) + 3 + (status.length + (8 - runeCount status) + 3) := by
    simp only [padRight, str_sep, List.length_append, List.length_replicate, List.length_cons,
      List.length_nil]
    omega
  have hstatus : ((reportLine url status msg).drop (url.length + (30 - runeCount url) + 3)).take
      status.length = status := by
    rw [e2, List.drop_left' l2, List.take_left]
  have hdetail : (reportLine url status msg).drop (url.length + (30 - runeCount url) + 3
      + (status.length + (8 - runeCount status) + 3)) = msg ++ [10] := by
    rw [e3, List.drop_left' l3]
  refine ⟨logToReport_fs_report_getD w i st url status msg,
    logToReport_fs_report w i st url status msg, ?_, ?_, e0,
    runeCount_padRight 30 url, runeCount_padRight 8 status, ?_, hstatus, hdetail, ?_, ?_⟩
  · rintro ⟨err, herr⟩
    simp [logToReport, herr, State.emit]
  · intro n err herr
    simp [logToReport, herr, State.emit, FS.set]
  · rw [e1, List.take_left]
  · intro hu hul
    have hrc : runeCount url = url.length := runeCount_ascii url hu
    have h33 : url.length + (30 - runeCount url) + 3 = 33 := by omega
    refine ⟨by rw [← h33]; exact hstatus, ?_⟩
    intro hs hsl
    have hrs : runeCount status = status.length := runeCount_ascii status hs
    have h44 : url.length + (30 - runeCount url) + 3
        + (status.length + (8 - runeCount status) + 3) = 44 := by omega
    rw [← h44]
    exact hdetail
  · intro n1 n2 n3
    simp only [reportLine, padRight, str_sep, str_newline, List.count_append,
      List.count_eq_zero_of_not_mem n1, List.count_eq_zero_of_not_mem n2,
      List.count_eq_zero_of_not_mem n3, List.count_replicate]
    simp

theorem report_line_columns_witness :
    (∀ b ∈ str "http://a.example/", b < 128) ∧ (str "http://a.example/").length ≤ 30 ∧
    (∀ b ∈ str "PARTIAL", b < 128) ∧ (str "PARTIAL").length ≤ 8 ∧
    (reportLine (str "http://a.example/") (str "PARTIAL")
      (str "HTML OK, Screenshot FAILED")).drop 44 = str "HTML OK, Screenshot FAILED" ++ [10] :=
  ⟨by decide, by decide, by decide, by decide,
    ((report_line_columns (calmWorld []) 0 ⟨emptyFS, []⟩ (str "http://a.example/")
      (str "PARTIAL") (str "HTML OK, Screenshot FAILED")).2.2.2.2.2.2.2.2.2.2.1
      (by decide) (by decide)).2 (by decide) (by decide)⟩

/-! ## The end-to-end scenario -/

theorem trimSpace_first : trimSpace (str "http://a.example/") = str "http://a.example/" := by
  decide

theorem trimSpace_second : trimSpace (str "") = [] := by decide

theorem trimSpace_third :
    trimSpace (str "https://b.example/path") = str "https://b.example/path" := by
  decide

theorem report_ne_html (base : GoString) : ReportFile ≠ base ++ str ".html" :=
  fun h => html_ne_report base h.symm

theorem report_ne_png (base : GoString) : ReportFile ≠ base ++ str ".png" :=
  fun h => png_ne_report base h.symm

/-- C7, as the claim states it, fails: in the scenario the outcomes carry the
target URLs, and the names derived from them are `a_example` and
`b_example_path`, with every dot replaced; neither reading gives the
identifiers `a.example` and `b.example_path`.  And when the report cannot be
opened for appending, or opens and takes no byte, the same two outcomes are
recorded and no line is appended: the report is the header alone. -/
theorem scenario_identifiers_differ :
    (outcomes (main scenarioWorld emptyFS).2.trace).map (fun o => (o.target, o.status))
      ≠ [(str "a.example", str "ACTIVE"), (str "b.example_path", str "PARTIAL")] ∧
    (outcomes (main scenarioWorld emptyFS).2.trace).map
        (fun o => (generateFilename o.target, o.status))
      ≠ [(.ok (str "a.example"), str "ACTIVE"), (.ok (str "b.example_path"), str "PARTIAL")] ∧
    (outcomes (main scenarioWorld emptyFS).2.trace).map
        (fun o => (o.target, generateFilename o.target, o.status))
      = [(str "http://a.example/", .ok (str "a_example"), str "ACTIVE"),
         (str "https://b.example/path", .ok (str "b_example_path"), str "PARTIAL")] ∧
    (outcomes (main mutedReportWorld emptyFS).2.trace).map (fun o => (o.target, o.status))
      = [(str "http://a.example/", str "ACTIVE"), (str "https://b.example/path", str "PARTIAL")] ∧
    (main mutedReportWorld emptyFS).2.fs ReportFile
      = (initReportFile mutedReportWorld ⟨emptyFS, []⟩).fs ReportFile ∧
    (outcomes (main tornReportWorld emptyFS).2.trace).map (fun o => (o.target, o.status))
      = [(str "http://a.example/", str "ACTIVE"), (str "https://b.example/path", str "PARTIAL")] ∧
    (main tornReportWorld emptyFS).2.fs ReportFile
      = (initReportFile tornReportWorld ⟨emptyFS, []⟩).fs ReportFile := by
  decide

/-- C7, amended: for the targets `http://a.example/`, a blank entry and
`https://b.example/path`, with a confirmed Tor exit, both fetches succeeding,
the first capture succeeding and the second failing in the rendering engine,
the run ends normally and records exactly two outcomes, in this order: the
target `http://a.example/` with the tag `ACTIVE` (artifact name `a_example`)
and the target `https://b.example/path` with the tag `PARTIAL` (artifact name
`b_example_path`); when both appends to the report succeed, exactly the two
lines of these outcomes are appended to what `initReportFile` left, and in
general each of the two calls of `logToReport` adds its whole line, nothing
when the report cannot be opened, or the bytes written when the write is cut
short. -/
theorem scenario_outcomes (w : World) (fs : FS) (r : TorCheckIP) (d1 d2 b1 err : GoString)
    (hsocks : w.socks5 = none) (htor : w.torApi = .body (.ok r)) (hr : r.IsTor = true)
    (hload : loadTargets w (str "targets.yaml") = .ok scenarioTargets)
    (hf0 : fetchHTML (w.http 0 (str "http://a.example/")) = .ok d1)
    (hf2 : fetchHTML (w.http 2 (str "https://b.example/path")) = .ok d2)
    (hc0 : w.render 0 (str "http://a.example/") = .ok b1) (hp0 : w.pngWrite 0 = .ok)
    (hc2 : w.render 2 (str "https://b.example/path") = .error err) :
    (main w fs).1 = .normal ∧
    outcomes (main w fs).2.trace
      = [⟨str "http://a.example/", str "ACTIVE", str "HTML & PNG Saved (a_example)"⟩,
         ⟨str "https://b.example/path", str "PARTIAL", str "HTML OK, Screenshot FAILED"⟩] ∧
    generateFilename (str "http://a.example/") = .ok (str "a_example") ∧
    generateFilename (str "https://b.example/path") = .ok (str "b_example_path") ∧
    ((main w fs).2.fs ReportFile).getD []
      = ((initReportFile w ⟨fs, []⟩).fs ReportFile).getD []
        ++ appendedText (w.reportAppend 0) (reportLine (str "http://a.example/") (str "ACTIVE")
            (str "HTML & PNG Saved (a_example)"))
        ++ appendedText (w.reportAppend 2) (reportLine (str "https://b.example/path")
            (str "PARTIAL") (str "HTML OK, Screenshot FAILED")) ∧
    (w.reportAppend 0 = .ok → w.reportAppend 2 = .ok →
      (main w fs).2.fs ReportFile = some (((initReportFile w ⟨fs, []⟩).fs ReportFile).getD []
        ++ reportLine (str "http://a.example/") (str "ACTIVE")
            (str "HTML & PNG Saved (a_example)")
        ++ reportLine (str "https://b.example/path") (str "PARTIAL")
            (str "HTML OK, Screenshot FAILED"))) ∧
    (reportLine (str "http://a.example/") (str "ACTIVE") (str "HTML & PNG Saved (a_example)")
      ++ reportLine (str "https://b.example/path") (str "PARTIAL")
          (str "HTML OK, Screenshot FAILED")).count 10 = 2 := by
  have hn1 : generateFilename (trimSpace (str "http://a.example/")) = .ok (str "a_example") := by
    decide
  have hn3 : generateFilename (trimSpace (str "https://b.example/path"))
      = .ok (str "b_example_path") := by
    decide
  have hcap0 : captureError w 0 (str "http://a.example/") = none := by
    simp [captureError, hc0, hp0]
  have hcap2 : captureError w 2 (str "https://b.example/path") ≠ none := by
    simp [captureError, hc2]
  have hmsg : str "HTML & PNG Saved (" ++ str "a_example" ++ str ")"
      = str "HTML & PNG Saved (a_example)" := by
    decide
  have h1 := loopBody_fetch_ok w 0 (str "http://a.example/")
    (initReportFile w ⟨fs, [.torCheckGet, .loadTargets (str "targets.yaml")]⟩)
    (str "a_example") d1 (by decide) hn1 (by rw [trimSpace_first]; exact hf0)
  rw [trimSpace_first] at h1
  rw [if_pos hcap0, if_pos hcap0, hmsg] at h1
  have h2 := fun st => loopBody_blank w 1 (str "") st trimSpace_second
  have h3 := fun st => loopBody_fetch_ok w 2 (str "https://b.example/path") st
    (str "b_example_path") d2 (by decide) hn3 (by rw [trimSpace_third]; exact hf2)
  rw [trimSpace_third] at h3
  simp only [if_neg hcap2] at h3
  rw [trimSpace_first] at hn1
  rw [trimSpace_third] at hn3
  rw [main_past_gate w fs r scenarioTargets hsocks htor hr hload]
  simp only [scenarioTargets]
  rw [mainLoop_cons _ _ _ _ _ _ h1, mainLoop_cons _ _ _ _ _ _ (h2 _),
    mainLoop_cons _ _ _ _ _ _ (h3 _)]
  refine ⟨rfl, ?_, hn1, hn3, ?_, ?_, by decide⟩
  · simp [mainLoop, logToReport_trace, takeScreenshot_trace, afterHtml_trace, outcomes,
      List.filterMap_append, initReportFile]
  · simp only [mainLoop]
    rw [logToReport_fs_report_getD,
      takeScreenshot_fs_other _ _ _ _ _ _ (report_ne_png _),
      afterHtml_fs_other _ _ _ _ _ _ _ (report_ne_html _),
      logToReport_fs_report_getD,
      takeScreenshot_fs_other _ _ _ _ _ _ (report_ne_png _),
      afterHtml_fs_other _ _ _ _ _ _ _ (report_ne_html _)]
    simp [initReportFile, List.append_assoc]
  · intro ha0 ha2
    simp only [mainLoop]
    rw [logToReport_fs_report _ _ _ _ _ _ ha2,
      takeScreenshot_fs_other _ _ _ _ _ _ (report_ne_png _),
      afterHtml_fs_other _ _ _ _ _ _ _ (report_ne_html _),
      logToReport_fs_report _ _ _ _ _ _ ha0,
      takeScreenshot_fs_other _ _ _ _ _ _ (report_ne_png _),
      afterHtml_fs_other _ _ _ _ _ _ _ (report_ne_html _)]
    simp [initReportFile, List.append_assoc]

theorem scenario_outcomes_witness :
    scenarioWorld.socks5 = none ∧
    scenarioWorld.torApi = .body (.ok ⟨true, str "185.220.101.1"⟩) ∧
    loadTargets scenarioWorld (str "targets.yaml") = .ok scenarioTargets ∧
    fetchHTML (scenarioWorld.http 0 (str "http://a.example/")) = .ok (str "<html>doc</html>") ∧
    fetchHTML (scenarioWorld.http 2 (str "https://b.example/path"))
      = .ok (str "<html>doc</html>") ∧
    scenarioWorld.render 0 (str "http://a.example/") = .ok (str "png-bytes") ∧
    scenarioWorld.pngWrite 0 = .ok ∧
    scenarioWorld.render 2 (str "https://b.example/path")
      = .error (str "context deadline exceeded") ∧
    outcomes (main scenarioWorld emptyFS).2.trace
      = [⟨str "http://a.example/", str "ACTIVE", str "HTML & PNG Saved (a_example)"⟩,
         ⟨str "https://b.example/path", str "PARTIAL", str "HTML OK, Screenshot FAILED"⟩] :=
  ⟨rfl, rfl, rfl, by decide, by decide, rfl, rfl, rfl,
    (scenario_outcomes scenarioWorld emptyFS ⟨true, str "185.220.101.1"⟩
      (str "<html>doc</html>") (str "<html>doc</html>") (str "png-bytes")
      (str "context deadline exceeded") rfl rfl rfl rfl (by decide) (by decide)
      rfl rfl rfl).2.1⟩

end TorScraper
